import Mathlib

/-!
Verification of the `dsp_save_parser` repository: a shallow embedding of the
primitive binary codecs (`dsp_save_parser/common.py`), the non-standard MD5
digest (`buggy_md5.py`), the blueprint envelope checks (`blueprint.py`), and
the relevant parts of the parser generator (`dsp_save_parser/generator.py`),
together with theorems settling the specification claims.

Conventions of the embedding:
* Byte strings are `List Nat` with every element < 256 on well-formed data.
* Python's unbounded `int` is `Int` (or `Nat` where the source value is
  provably non-negative); machine-width wrap-around is explicit via masks.
* A binary stream (`BinaryIO`) is a `ByteStream`: the underlying data plus a
  read position.  `read n` returns up to `n` bytes, exactly like Python file
  `read` (no end-of-file failure), and advances the position by the number of
  bytes actually returned.
* Fallible code returns `Except PyErr`; each `PyErr` constructor corresponds
  to one Python exception raised (or raisable) by the source.
-/

/-- Python exceptions raised by the modelled code paths. -/
inductive PyErr where
  /-- Source `EOFError` raised by `varint.parse` when `data.read(1)` is empty. -/
  | eofError
  /-- Source `OverflowError` raised by `int.to_bytes` when the value does not fit. -/
  | overflowError
  /-- Source `TypeError` raised by `len(...)` on an object without `__len__`. -/
  | typeError
  /-- Source `UnicodeDecodeError` from `open(file, encoding='ascii').read()`. -/
  | unicodeDecodeError
  /-- Source `AssertionError` "length corrupt ..." (blueprint.py line 66). -/
  | lengthCorrupt
  /-- Source `AssertionError` "corrupt header" (blueprint.py line 67). -/
  | corruptHeader
  /-- Source `AssertionError` "... quote char near the beginning" (line 70). -/
  | noBeginQuote
  /-- Source `AssertionError` "invalid header array length ..." (line 73). -/
  | invalidHeaderArray
  /-- Source `AssertionError` "... quote char near the end of the file" (line 77). -/
  | noEndQuote
  /-- Source `AssertionError` "invalid position for quote char ..." (line 78). -/
  | invalidEndQuotePos
  /-- Source `AssertionError` "md5 signature check failed ..." (line 84). -/
  | signatureMismatch
  deriving DecidableEq, Repr

/-- A Python `BinaryIO` stream: underlying bytes plus the current position,
as reported by `stream.tell()`. -/
structure ByteStream where
  data : List Nat
  pos : Nat
  deriving DecidableEq, Repr

/-- Python `stream.read(n)`: return up to `n` bytes starting at the current
position (an empty or short list near end-of-file, never an error) and
advance the position by the number of bytes returned. -/
def ByteStream.read (s : ByteStream) (n : Nat) : List Nat × ByteStream :=
  let bs := (s.data.drop s.pos).take n
  (bs, ⟨s.data, s.pos + bs.length⟩)

/-- Python `stream.tell()`. -/
def ByteStream.tell (s : ByteStream) : Nat := s.pos

/-- Little-endian base-256 digits of `v`, `k` bytes long (the byte level of
Python `int.to_bytes(k, byteorder='little')` after range checking). -/
def toBytesLE : Nat → Nat → List Nat
  | 0, _ => []
  | k + 1, v => v % 256 :: toBytesLE k (v / 256)

/-- Python `int.from_bytes(bs, byteorder='little', signed=False)`. -/
def fromBytesLEU : List Nat → Nat
  | [] => 0
  | b :: rest => b + 256 * fromBytesLEU rest

/-- Python `int.from_bytes(bs, byteorder='little', signed=True)`: two's
complement of the most significant (last) byte.  On the empty list the
result is 0, exactly as in Python. -/
def fromBytesLES (bs : List Nat) : Int :=
  let u := fromBytesLEU bs
  if u < 2 ^ (8 * bs.length - 1) then (u : Int) else (u : Int) - 2 ^ (8 * bs.length)

/-- Python `int.from_bytes(bs, byteorder='little', signed=signed)`. -/
def pyIntFromBytes (signed : Bool) (bs : List Nat) : Int :=
  if signed then fromBytesLES bs else (fromBytesLEU bs : Int)

/-- Python `v.to_bytes(k, byteorder='little', signed=signed)`: raises
`OverflowError` when `v` is out of range, otherwise the `k` little-endian
bytes of `v` (two's complement when signed). -/
def pyIntToBytes (k : Nat) (signed : Bool) (v : Int) : Except PyErr (List Nat) :=
  if signed then
    if v < -(2 ^ (8 * k - 1)) ∨ (2 ^ (8 * k - 1) : Int) ≤ v then .error .overflowError
    else .ok (toBytesLE k (v % (2 ^ (8 * k) : Nat)).toNat)
  else
    if v < 0 ∨ (2 ^ (8 * k) : Int) ≤ v then .error .overflowError
    else .ok (toBytesLE k v.toNat)

namespace int8

/-- Source `int8.parse` (common.py lines 40-42): `read(1)` and `int.from_bytes`
signed; note the absence of any length check on the bytes returned. -/
def parse (data : ByteStream) : Except PyErr (Int × ByteStream) :=
  let r := data.read 1
  .ok (pyIntFromBytes true r.1, r.2)

/-- Source `int8.save` (common.py lines 44-45). -/
def save (v : Int) : Except PyErr (List Nat) := pyIntToBytes 1 true v

end int8

namespace uint8

/-- Source `uint8.parse` (common.py lines 50-52). -/
def parse (data : ByteStream) : Except PyErr (Int × ByteStream) :=
  let r := data.read 1
  .ok (pyIntFromBytes false r.1, r.2)

/-- Source `uint8.save` (common.py lines 54-55). -/
def save (v : Int) : Except PyErr (List Nat) := pyIntToBytes 1 false v

end uint8

namespace boolean

/-- Source `boolean.parse` (common.py lines 60-62): `cls(bool(...))`, i.e. the
parsed unsigned byte collapsed to 0 or 1. -/
def parse (data : ByteStream) : Except PyErr (Int × ByteStream) :=
  let r := data.read 1
  .ok (if fromBytesLEU r.1 = 0 then (0 : Int) else 1, r.2)

end boolean

namespace int16

/-- Source `int16.parse` (common.py lines 70-72). -/
def parse (data : ByteStream) : Except PyErr (Int × ByteStream) :=
  let r := data.read 2
  .ok (pyIntFromBytes true r.1, r.2)

end int16

namespace uint16

/-- Source `uint16.parse` (common.py lines 80-82). -/
def parse (data : ByteStream) : Except PyErr (Int × ByteStream) :=
  let r := data.read 2
  .ok (pyIntFromBytes false r.1, r.2)

end uint16

namespace int24

/-- Source `int24.parse` (common.py lines 90-92). -/
def parse (data : ByteStream) : Except PyErr (Int × ByteStream) :=
  let r := data.read 3
  .ok (pyIntFromBytes true r.1, r.2)

end int24

namespace int32

/-- Source `int32.parse` (common.py lines 100-102). -/
def parse (data : ByteStream) : Except PyErr (Int × ByteStream) :=
  let r := data.read 4
  .ok (pyIntFromBytes true r.1, r.2)

end int32

namespace uint32

/-- Source `uint32.parse` (common.py lines 110-112). -/
def parse (data : ByteStream) : Except PyErr (Int × ByteStream) :=
  let r := data.read 4
  .ok (pyIntFromBytes false r.1, r.2)

end uint32

namespace int64

/-- Source `int64.parse` (common.py lines 120-122). -/
def parse (data : ByteStream) : Except PyErr (Int × ByteStream) :=
  let r := data.read 8
  .ok (pyIntFromBytes true r.1, r.2)

end int64

namespace uint64

/-- Source `uint64.parse` (common.py lines 130-132). -/
def parse (data : ByteStream) : Except PyErr (Int × ByteStream) :=
  let r := data.read 8
  .ok (pyIntFromBytes false r.1, r.2)

end uint64

namespace varint

/-- The `while True` loop of `varint.parse` (common.py lines 183-192),
recursing over the remaining bytes of the stream: `value = value << 7 |
(byte & 0x7F)` (MSB-first accumulation), stop when the continuation bit is
clear, `EOFError` when `read(1)` returns nothing. -/
def parseLoop (value : Nat) : List Nat → Except PyErr (Nat × Nat)
  | [] => .error .eofError
  | b :: rest =>
    let value := value <<< 7 ||| (b &&& 0x7F)
    if b &&& 0x80 = 0 then .ok (value, rest.length) else parseLoop value rest

/-- Source `varint.parse` (common.py lines 180-192), on a stream.  The loop runs on
the bytes after the current position; the final position is recovered from
the number of bytes the loop left unconsumed. -/
def parse (data : ByteStream) : Except PyErr (Nat × ByteStream) := do
  let (value, remaining) ← parseLoop 0 (data.data.drop data.pos)
  .ok (value, ⟨data.data, data.data.length - remaining⟩)

/-- The `while value > 0x7F` loop of `varint.save` (common.py lines
195-200), with an explicit fuel argument to make the recursion structural;
each iteration strictly decreases `value`, so `value + 1` units of fuel are
always sufficient, and the `fuel = 0` branch is never taken. -/
def saveLoop : Nat → Nat → List Nat → List Nat
  | 0, value, acc => acc ++ [value]
  | fuel + 1, value, acc =>
    if 0x7F < value then saveLoop fuel (value >>> 7) (acc ++ [0x80 ||| (value &&& 0x7F)])
    else acc ++ [value]

/-- Source `varint.save` (common.py lines 194-201): emit the LEAST significant
7-bit group first while `value > 0x7F`, then the final group without the
continuation bit. -/
def save (value : Nat) : List Nat := saveLoop (value + 1) value []

end varint

namespace string

/-- Source `string.parse` (common.py lines 206-209): a varint length followed by
that many bytes.  A Python `str` value is represented by its UTF-8 bytes;
the UTF-8 decoding step is modelled as the identity on the byte content
(all string data appearing in the theorems below is ASCII). -/
def parse (data : ByteStream) : Except PyErr (List Nat × ByteStream) := do
  let (length, data) ← varint.parse data
  .ok (data.read length)

/-- Source `string.save` (common.py lines 211-214): `self.encode('utf-8')` is the
identity on the byte representation, then the varint byte length, then the
bytes. -/
def save (v : List Nat) : List Nat := varint.save v.length ++ v

end string

namespace FlexibleInt

/-- Source `FlexibleInt.parse` (common.py lines 219-227): one indicator byte; 0 or
more than 4 means the indicator is the value, 1-3 mean that many unsigned
little-endian payload bytes, 4 means four signed payload bytes. -/
def parse (data : ByteStream) : Except PyErr (Int × ByteStream) := do
  let (indicator, data) ← uint8.parse data
  if indicator > 4 ∨ indicator = 0 then
    .ok (indicator, data)
  else if indicator < 4 then
    let r := data.read indicator.toNat
    .ok (pyIntFromBytes false r.1, r.2)
  else
    let r := data.read indicator.toNat
    .ok (pyIntFromBytes true r.1, r.2)

/-- Source `FlexibleInt.save` (common.py lines 229-247): `0x00` alone for 0;
`0x04` plus four signed bytes for negatives; one unsigned byte for values
up to 0xFF, preceded by a `0x01` indicator when the value is at most 4;
`0x02`/`0x03` plus two/three unsigned bytes up to 0xFFFF/0xFFFFFF; `0x04`
plus four signed bytes otherwise. -/
def save (v : Int) : Except PyErr (List Nat) :=
  if v = 0 then .ok [0x00]
  else if v < 0 then do
    let payload ← pyIntToBytes 4 true v
    .ok (0x04 :: payload)
  else if v ≤ 0xFF then do
    let payload ← pyIntToBytes 1 false v
    .ok (if v ≤ 4 then 0x01 :: payload else payload)
  else if v ≤ 0xFFFF then do
    let payload ← pyIntToBytes 2 false v
    .ok (0x02 :: payload)
  else if v ≤ 0xFFFFFF then do
    let payload ← pyIntToBytes 3 false v
    .ok (0x03 :: payload)
  else do
    let payload ← pyIntToBytes 4 true v
    .ok (0x04 :: payload)

end FlexibleInt

namespace MD5

/-- Python `~x` composed with the enclosing `& 0xFFFFFFFF` context: on the
low 32 bits, the bitwise complement of `x`.  All uses below combine this
with a final `& 0xFFFFFFFF` mask, which makes it agree with Python's
infinite two's complement `~`. -/
def pyNot32 (x : Nat) : Nat := 0xFFFFFFFF ^^^ (x &&& 0xFFFFFFFF)

/-- Source `MD5_f1` (buggy_md5.py lines 4-6): `((b & c) | ((~b) & d)) & 0xFFFFFFFF`. -/
def MD5_f1 (b c d : Nat) : Nat := ((b &&& c) ||| (pyNot32 b &&& d)) &&& 0xFFFFFFFF

/-- Source `MD5_f2` (lines 8-10): `((b & d) | (c & (~d))) & 0xFFFFFFFF`. -/
def MD5_f2 (b c d : Nat) : Nat := ((b &&& d) ||| (c &&& pyNot32 d)) &&& 0xFFFFFFFF

/-- Source `MD5_f3` (lines 12-14): `(b ^ c ^ d) & 0xFFFFFFFF`. -/
def MD5_f3 (b c d : Nat) : Nat := (b ^^^ c ^^^ d) &&& 0xFFFFFFFF

/-- Source `MD5_f4` (lines 16-18): `(c ^ (b | (~d))) & 0xFFFFFFFF`. -/
def MD5_f4 (b c d : Nat) : Nat := (c ^^^ (b ||| pyNot32 d)) &&& 0xFFFFFFFF

/-- Source `leftrotate` (lines 20-23). -/
def leftrotate (x c : Nat) : Nat :=
  let x := x &&& 0xFFFFFFFF
  ((x <<< c) ||| (x >>> (32 - c))) &&& 0xFFFFFFFF

/-- Source `leftshift` (lines 25-27). -/
def leftshift (x c : Nat) : Nat := x <<< c

/-- The per-round shift table `s` (lines 35, 38-41). -/
def sTable : List Nat :=
  [7, 12, 17, 22, 7, 12, 17, 22, 7, 12, 17, 22, 7, 12, 17, 22,
   5, 9, 14, 20, 5, 9, 14, 20, 5, 9, 14, 20, 5, 9, 14, 20,
   4, 11, 16, 23, 4, 11, 16, 23, 4, 11, 16, 23, 4, 11, 16, 23,
   6, 10, 15, 21, 6, 10, 15, 21, 6, 10, 15, 21, 6, 10, 15, 21]

/-- The round-constant table `K` (lines 36, 43-53).  The loop at line 43-44
fills it with `floor(2**32 * abs(sin(i + 1))) & 0xFFFFFFFF`, i.e. the
standard MD5 constants, transliterated here as their well-known exact
values; lines 46-53 then overwrite the eight indices 1, 6, 12, 15, 19, 21,
24 and 27 with the deliberately altered values. -/
def K : List Nat :=
  [0xd76aa478, 0xe8d7b756, 0x242070db, 0xc1bdceee,
   0xf57c0faf, 0x4787c62a, 0xa8304623, 0xfd469501,
   0x698098d8, 0x8b44f7af, 0xffff5bb1, 0x895cd7be,
   0x6b9f1122, 0xfd987193, 0xa679438e, 0x39b40821,
   0xf61e2562, 0xc040b340, 0x265e5a51, 0xc9b6c7aa,
   0xd62f105d, 0x02443453, 0xd8a1e681, 0xe7d3fbc8,
   0x21f1cde6, 0xc33707d6, 0xf4d50d87, 0x475a14ed,
   0xa9e3e905, 0xfcefa3f8, 0x676f02d9, 0x8d2a4c8a,
   0xfffa3942, 0x8771f681, 0x6d9d6122, 0xfde5380c,
   0xa4beea44, 0x4bdecfa9, 0xf6bb4b60, 0xbebfbc70,
   0x289b7ec6, 0xeaa127fa, 0xd4ef3085, 0x04881d05,
   0xd9d4d039, 0xe6db99e5, 0x1fa27cf8, 0xc4ac5665,
   0xf4292244, 0x432aff97, 0xab9423a7, 0xfc93a039,
   0x655b59c3, 0x8f0ccc92, 0xffeff47d, 0x85845dd1,
   0x6fa87e4f, 0xfe2ce6e0, 0xa3014314, 0x4e0811a1,
   0xf7537e82, 0xbd3af235, 0x2ad7d2bb, 0xeb86d391]

/-- The altered initial state (lines 57-62): `b0` is `0xefdcab89` where
standard MD5 has `0xefcdab89`, `d0` is `0x10325746` where standard MD5 has
`0x10325476`. -/
def a0 : Nat := 0x67452301
/-- Altered initial `B` (line 59). -/
def b0 : Nat := 0xefdcab89
/-- Standard initial `C` (line 60). -/
def c0 : Nat := 0x98badcfe
/-- Altered initial `D` (line 62). -/
def d0 : Nat := 0x10325746

/-- Source `MD5.__init__` (lines 64-65): `hash_pieces = [a0, b0, c0, d0]`. -/
def init : Nat × Nat × Nat × Nat := (a0, b0, c0, d0)

/-- Step 1 of `update` (lines 70-80): append `0x80`, pad with zeros until
the length is 56 mod 64 (the closed form of the `while` loop at lines
76-77), then append the original bit length modulo `2 ** 64` as eight
little-endian bytes. -/
def pad (arg : List Nat) : List Nat :=
  let origLenInBits := (8 * arg.length) &&& 0xFFFFFFFFFFFFFFFF
  let data := arg ++ [0x80]
  let zeros := (56 + 64 - data.length % 64) % 64
  data ++ List.replicate zeros 0 ++ toBytesLE 8 origLenInBits

/-- One iteration of the main loop (lines 89-105) on state `(A, B, C, D)`
for round `i` of the 64-byte chunk `chunks`. -/
def mainRound (chunks : List Nat) (st : Nat × Nat × Nat × Nat) (i : Nat) :
    Nat × Nat × Nat × Nat :=
  let (A, B, C, D) := st
  let F := if i ≤ 15 then MD5_f1 B C D
    else if i ≤ 31 then MD5_f2 B C D
    else if i ≤ 47 then MD5_f3 B C D
    else MD5_f4 B C D
  let g := if i ≤ 15 then i
    else if i ≤ 31 then (5 * i + 1) % 16
    else if i ≤ 47 then (3 * i + 5) % 16
    else (7 * i) % 16
  let toRotate := (A + F + K.getD i 0 + fromBytesLEU ((chunks.drop (4 * g)).take 4)) &&& 0xFFFFFFFF
  let newB := (B + leftrotate toRotate (sTable.getD i 0)) &&& 0xFFFFFFFF
  (D, newB, B, C)

/-- The per-chunk body of `update` (lines 85-110): run the 64 rounds from
the current pieces and add the result back into them modulo `2 ** 32`. -/
def chunkStep (pieces : Nat × Nat × Nat × Nat) (chunks : List Nat) :
    Nat × Nat × Nat × Nat :=
  let (h1, h2, h3, h4) := pieces
  let (A, B, C, D) := (List.range 64).foldl (mainRound chunks) (h1, h2, h3, h4)
  ((h1 + A) &&& 0xFFFFFFFF, (h2 + B) &&& 0xFFFFFFFF,
   (h3 + C) &&& 0xFFFFFFFF, (h4 + D) &&& 0xFFFFFFFF)

/-- Source `MD5.update` (lines 67-112): pad, then process the message in 64-byte
chunks (`for offset in range(0, len(data), 64)`), returning the new
`hash_pieces`. -/
def update (pieces : Nat × Nat × Nat × Nat) (arg : List Nat) :
    Nat × Nat × Nat × Nat :=
  let data := pad arg
  (List.range (data.length / 64)).foldl
    (fun st k => chunkStep st ((data.drop (64 * k)).take 64)) pieces

/-- Source `MD5.digest` (lines 114-115): `sum(leftshift(x, 32 * i))` over the four
pieces. -/
def digest (pieces : Nat × Nat × Nat × Nat) : Nat :=
  let (h1, h2, h3, h4) := pieces
  leftshift h1 0 + leftshift h2 32 + leftshift h3 64 + leftshift h4 96

/-- Big-endian `int.from_bytes(raw, byteorder='big')` (line 122). -/
def fromBytesBE (bs : List Nat) : Nat := bs.foldl (fun acc b => acc * 256 + b) 0

/-- Python `'{:032x}'.format(v)`: lowercase hexadecimal, zero-padded on the
left to 32 characters. -/
def format032x (v : Nat) : String :=
  let ds := Nat.toDigits 16 v
  ⟨List.replicate (32 - ds.length) '0' ++ ds⟩

/-- Source `MD5.hexdigest` (lines 117-122): the digest serialized as 16
little-endian bytes, reinterpreted big-endian and printed as 32 lowercase
hex characters. -/
def hexdigest (pieces : Nat × Nat × Nat × Nat) : String :=
  format032x (fromBytesBE (toBytesLE 16 (digest pieces)))

/-- The digest of a single byte string: `m = MD5(); m.update(arg);
m.hexdigest()`, as done by `load_blueprint_data` (blueprint.py lines
80-82). -/
def hexdigestOf (arg : List Nat) : String := hexdigest (update init arg)

end MD5

/-! ### Blueprint envelope (`blueprint.py`, `load_blueprint_data`) -/

/-- The positions located by the structural (pre-signature) checks of
`load_blueprint_data`: the opening and closing quote characters. -/
structure EnvelopeParts where
  beginPos : Nat
  endPos : Nat
  deriving DecidableEq, Repr

/-- Python `data.find('"', start, stop)` for a single character: the lowest
index `i` with `start ≤ i < stop` and `data[i] = '"'`, as an `Option`
(`none` for Python's `-1`). -/
def strFindQuote (data : List Char) (start stop : Nat) : Option Nat :=
  (((data.take stop).drop start).findIdx? (fun c => c = '"')).map (· + start)

/-- Python `data.rfind('"', start)` for a single character: the highest
index `i ≥ start` with `data[i] = '"'`, as an `Option`. -/
def strRFindQuote (data : List Char) (start : Nat) : Option Nat :=
  data.enum.foldl (fun acc p => if start ≤ p.1 ∧ p.2 = '"' then some p.1 else acc) none

/-- The structural checks of `load_blueprint_data` (blueprint.py lines
60-78), up to but not including the signature check.  The file is read with
`encoding='ascii'` (line 60), so any non-ASCII character fails first; then:
length at least 28 (line 66), the `BLUEPRINT:` magic (line 67), an opening
quote in `[28, min(len, 8192))` (lines 69-70), at least 12 comma-separated
header entries between position 10 and the opening quote (lines 72-73), a
closing quote at or after `max(len - 36, 0)` (lines 75-77; natural-number
subtraction is exactly Python's `max(..., 0)` here), and at least 32
characters after the closing quote (line 78). -/
def parseEnvelope (data : List Char) : Except PyErr EnvelopeParts :=
  if ¬ data.all (fun c => c.toNat < 128) then .error .unicodeDecodeError
  else if data.length < 28 then .error .lengthCorrupt
  else if ¬ (data.take 10 = "BLUEPRINT:".data) then .error .corruptHeader
  else match strFindQuote data 28 (min data.length 8192) with
    | none => .error .noBeginQuote
    | some beginPos =>
      if ((data.take beginPos).drop 10).count ',' + 1 < 12 then .error .invalidHeaderArray
      else match strRFindQuote data (data.length - 36) with
        | none => .error .noEndQuote
        | some endPos =>
          if data.length - 1 - endPos < 32 then .error .invalidEndQuotePos
          else .ok ⟨beginPos, endPos⟩

/-- The signature phase of `load_blueprint_data` (blueprint.py lines
80-84): the digest is computed over `data[:data_end_pos]` — the text
strictly BEFORE the closing quote — lower-cased, and compared with the
lower-cased 32 characters `data[data_end_pos+1 : data_end_pos+33]`
immediately after the closing quote.  (`.lower()` is modelled with
`Char.toLower`; all characters have already been checked to be ASCII.) -/
def loadBlueprintData (data : List Char) : Except PyErr EnvelopeParts := do
  let p ← parseEnvelope data
  let dataSign := (MD5.hexdigestOf ((data.take p.endPos).map Char.toNat)).data.map Char.toLower
  let expectedSign := (((data.drop (p.endPos + 1)).take 32).map Char.toLower)
  if dataSign = expectedSign then .ok p else .error .signatureMismatch

/-! ### Parser generator (`dsp_save_parser/generator.py`) -/

/-- A schema literal value as parsed by `parse_value` (generator.py lines
179-232): a Python `int`, `float` or `str`.  The float's numeric value is
irrelevant to the claims below and is carried as its source text. -/
inductive PyLiteral where
  | intLit (v : Int)
  | floatLit (text : String)
  | strLit (text : String)
  deriving DecidableEq, Repr

/-- The Python runtime type of an object, as tested by `type(x) == str`
and `type(x) == float` in `write_py_class` (generator.py lines 644, 647). -/
inductive PyType where
  | dict
  | str
  | float
  | int
  deriving DecidableEq, Repr

/-- An `assertion` attribute as built by `parse_assertion` (generator.py
lines 235-257): a dict `{'type': 'ref'|'const', 'value': ...}`. -/
structure AssertionMeta where
  isRef : Bool
  value : PyLiteral
  deriving DecidableEq, Repr

/-- The Python type of `meta['assertion']` itself.  `parse_assertion`
always stores a dict (either `{'type': 'ref', 'value': token}` at line 248
or the dict filled by `parse_value` at lines 252-254), so this is `.dict`
for every assertion — never `.str` or `.float`. -/
def assertionPyType (_ : AssertionMeta) : PyType := .dict

/-- The comparison emitted into the generated `parse` method for an
assertion. -/
inductive AssertKind where
  /-- Source `assert field == <snake-cased referenced field>` (line 641). -/
  | refEq
  /-- Source `assert field == repr(bytes(value, 'utf8'))` (line 645). -/
  | bytesEq
  /-- Source `assert abs(field - value) < FLOAT_COMPARISON_EPS` (line 648). -/
  | floatEps
  /-- Source `assert field == repr(value)` — plain equality (line 652). -/
  | eq
  deriving DecidableEq, Repr

/-- Source `FLOAT_COMPARISON_EPS` (generator.py line 70), carried symbolically as
its source text `1e-6`. -/
def FLOAT_COMPARISON_EPS : String := "1e-6"

/-- The assertion-emission branching of `write_py_class` (generator.py
lines 639-654) for a non-injected field carrying an assertion: dispatch on
`meta['assertion']['type'] == 'ref'`, then on `type(meta['assertion']) ==
str` and `type(meta['assertion']) == float`.  The latter two test the type
of the assertion DICT itself, not of `meta['assertion']['value']`. -/
def emittedAssert (a : AssertionMeta) : AssertKind :=
  if a.isRef then .refEq
  else if assertionPyType a = .str then .bytesEq
  else if assertionPyType a = .float then .floatEps
  else .eq

/-- The mangled class name of a template instantiation,
`'%s_%s' % (class_name, ''.join(template_type_list))`, as formed both in
`write_template_py_class` (generator.py line 480) and in `write_py_class`
(line 538). -/
def templateClassName (name : String) (args : List String) : String :=
  name ++ "_" ++ String.join args

/-- The memoization of `write_template_py_class` (generator.py lines
484-485 and 502): each instantiation request computes the mangled name and
generates a new class only if that name is not yet in
`_generated_template_classes`.  `instantiateAll` runs a sequence of
requests against an initially empty set and returns the list of generated
class names in order. -/
def instantiateAll (reqs : List (String × List String)) : List String :=
  reqs.foldl
    (fun generated r =>
      let cn := templateClassName r.1 r.2
      if cn ∈ generated then generated else generated ++ [cn])
    []

/-! ### Generated record classes

`write_py_class` (generator.py lines 510-741) emits, for every non-template
record of the schema, a class whose `parse`, `save` and `get_size` methods
are straight-line code over the field list.  Two concrete generated classes
are embedded below, following the emission templates exactly. -/

/-- The record generated for the schema definition `TestSX { string s;
int8 x }`: two plain (non-injected, non-array, unconditional) fields. -/
structure TestSX where
  s : List Nat
  x : Int
  location_start : Int
  location_end : Int
  deriving DecidableEq, Repr

namespace TestSX

/-- The generated `parse` (emission template at generator.py lines
597-657): `location_start = stream.tell()`, one `<type>.parse(stream)` per
field in order, `location_end = stream.tell()`, then the constructor. -/
def parse (stream : ByteStream) : Except PyErr (TestSX × ByteStream) := do
  let location_start := stream.tell
  let (s, stream) ← string.parse stream
  let (x, stream) ← int8.parse stream
  let location_end := stream.tell
  .ok (⟨s, x, location_start, location_end⟩, stream)

/-- The generated `save` (emission template at generator.py lines
659-697): `string(self.s).save(stream)` then `int8(self.x).save(stream)`,
writing sequentially to the stream. -/
def save (self : TestSX) : Except PyErr (List Nat) := do
  let b1 := string.save self.s
  let b2 ← int8.save self.x
  .ok (b1 ++ b2)

end TestSX

/-- Python `len(x)` on a value of an `int`-derived class (`int8`,
`uint32`, `FlexibleInt`, ...): `int` defines no `__len__`, so this raises
`TypeError` for every value. -/
def pyLenOfInt (_ : Int) : Except PyErr Nat := .error .typeError

/-- The record generated for the schema definition `RecA { int32 a }`. -/
structure RecA where
  a : Int
  location_start : Int
  location_end : Int
  deriving DecidableEq, Repr

namespace RecA

/-- The generated `parse` for `RecA` (emission template at generator.py
lines 597-657). -/
def parse (stream : ByteStream) : Except PyErr (RecA × ByteStream) := do
  let location_start := stream.tell
  let (a, stream) ← int32.parse stream
  let location_end := stream.tell
  .ok (⟨a, location_start, location_end⟩, stream)

/-- The generated `get_size` for `RecA` (emission template at generator.py
lines 699-733): `size = 0; size += len(int32(self.a)); return size`.  The
`len(...)` call is on an `int`-derived value. -/
def get_size (self : RecA) : Except PyErr Nat := do
  let size := 0
  let l ← pyLenOfInt self.a
  .ok (size + l)

end RecA

/-! ### Decidability helper -/

/-- Decidable equality for `Except`, used to settle concrete evaluations of
the fallible codecs by `decide`. -/
instance {ε α : Type} [DecidableEq ε] [DecidableEq α] : DecidableEq (Except ε α) := fun a b =>
  match a, b with
  | .error e₁, .error e₂ =>
    if h : e₁ = e₂ then .isTrue (by rw [h]) else .isFalse (fun hh => h (Except.error.inj hh))
  | .error _, .ok _ => .isFalse (fun hh => Except.noConfusion hh)
  | .ok _, .error _ => .isFalse (fun hh => Except.noConfusion hh)
  | .ok a₁, .ok a₂ =>
    if h : a₁ = a₂ then .isTrue (by rw [h]) else .isFalse (fun hh => h (Except.ok.inj hh))

/-! ### C3: varint -/

/-- C3: the claim "for every non-negative integer n, varint decode applied
to varint encode of n yields n; the encoded byte sequence of 300 is
[0x82, 0x2C] (MSB-first accumulation); the encoding of 0 is the single byte
0x00" fails on the code: `varint.save` emits the LEAST significant 7-bit
group first, so `varint.save 300 = [0xAC, 0x02]`, which `varint.parse`
(whose accumulation is indeed MSB-first, so that `[0x82, 0x2C]` decodes to
300) reads back as 5634, not 300.  Only the encoding-of-0 part holds. -/
theorem c3_varint_encode_decode_mismatch :
    varint.save 0 = [0x00] ∧
    varint.save 300 = [0xAC, 0x02] ∧
    varint.save 300 ≠ [0x82, 0x2C] ∧
    varint.parse ⟨[0xAC, 0x02], 0⟩ = .ok (5634, ⟨[0xAC, 0x02], 2⟩) ∧
    (5634 : Nat) ≠ 300 ∧
    varint.parse ⟨[0x82, 0x2C], 0⟩ = .ok (300, ⟨[0x82, 0x2C], 2⟩) := by
  refine ⟨rfl, rfl, by decide, rfl, by decide, rfl⟩

/-! ### C2: get_size -/

/-- C2: the claim "the generated get_size returns exactly location_end
minus location_start" fails on the code: the generated method computes
`size += len(int32(self.a))`, and `len` of an `int`-derived value raises
`TypeError`, so for the record `RecA { int32 a }` decoded from the four
bytes `01 00 00 00` (occupying `[0, 4)`), `get_size` raises instead of
returning 4. -/
theorem c2_get_size_type_error :
    RecA.parse ⟨[1, 0, 0, 0], 0⟩ = .ok (⟨1, 0, 4⟩, ⟨[1, 0, 0, 0], 4⟩) ∧
    (4 : Int) - 0 = 4 ∧
    RecA.get_size ⟨1, 0, 4⟩ = .error .typeError := by
  refine ⟨rfl, by decide, rfl⟩

/-! ### C5: FlexibleInt boundary -/

/-- C5: decoding `01 04` yields 4; decoding `04 04 00 00 00` also yields 4;
re-encoding the value obtained from the latter produces `01 04`; and in
general, for every value n in [1, 4], the decoder accepts both the
`0x01 n` and the `0x04 n 00 00 00` encodings and the encoder normalizes to
the `0x01`-indicator form. -/
theorem c5_flexible_int_boundary :
    FlexibleInt.parse ⟨[0x01, 0x04], 0⟩ = .ok (4, ⟨[0x01, 0x04], 2⟩) ∧
    FlexibleInt.parse ⟨[0x04, 0x04, 0x00, 0x00, 0x00], 0⟩ =
      .ok (4, ⟨[0x04, 0x04, 0x00, 0x00, 0x00], 5⟩) ∧
    FlexibleInt.save 4 = .ok [0x01, 0x04] ∧
    (∀ n : Int, 1 ≤ n → n ≤ 4 →
      FlexibleInt.parse ⟨[0x01, n.toNat], 0⟩ = .ok (n, ⟨[0x01, n.toNat], 2⟩) ∧
      FlexibleInt.parse ⟨[0x04, n.toNat, 0x00, 0x00, 0x00], 0⟩ =
        .ok (n, ⟨[0x04, n.toNat, 0x00, 0x00, 0x00], 5⟩) ∧
      FlexibleInt.save n = .ok [0x01, n.toNat]) := by
  refine ⟨by decide, by decide, by decide, fun n h1 h4 => ?_⟩
  have : n = 1 ∨ n = 2 ∨ n = 3 ∨ n = 4 := by omega
  rcases this with h | h | h | h <;> subst h <;> exact ⟨by decide, by decide, by decide⟩

/-- Witness for C5 at the concrete value 2. -/
theorem c5_flexible_int_boundary_witness :
    FlexibleInt.parse ⟨[0x01, 0x02], 0⟩ = .ok (2, ⟨[0x01, 0x02], 2⟩) ∧
    FlexibleInt.parse ⟨[0x04, 0x02, 0x00, 0x00, 0x00], 0⟩ =
      .ok (2, ⟨[0x04, 0x02, 0x00, 0x00, 0x00], 5⟩) ∧
    FlexibleInt.save 2 = .ok [0x01, 0x02] :=
  c5_flexible_int_boundary.2.2.2 2 (by decide) (by decide)

/-! ### C6: digest of the empty string -/

set_option maxRecDepth 100000 in
/-- C6 counterexample: the non-standard digest of the empty byte string is
NOT the value `8c0a78a4d2d7047f7be09b0fce22f67b` stated by the claim. -/
theorem c6_empty_digest_counterexample :
    MD5.hexdigestOf [] ≠ "8c0a78a4d2d7047f7be09b0fce22f67b" := by
  decide

set_option maxRecDepth 100000 in
/-- C6 amended: the non-standard digest (altered round constants `K[1]`,
`K[6]`, `K[12]`, `K[15]`, `K[19]`, `K[21]`, `K[24]`, `K[27]` and altered
initial state `B = 0xefdcab89`, `D = 0x10325746`) of the empty byte string
is `84d1ce3bd68f49ab26eb0f96416617cf`. -/
theorem c6_empty_digest : MD5.hexdigestOf [] = "84d1ce3bd68f49ab26eb0f96416617cf" := by
  decide

/-! ### C9: template instantiation memoization -/

/-- C9 counterexample: instantiation is memoized by the concatenation
`name + '_' + ''.join(args)`, not by the tuple of argument names, so the
two DIFFERENT argument tuples `("AB", "C")` and `("A", "BC")` of a template
`P` collide on the mangled name `P_ABC`: instantiating both yields ONE
generated record type, not two distinct ones as the claim states. -/
theorem c9_memo_key_counterexample :
    ["AB", "C"] ≠ ["A", "BC"] ∧
    templateClassName "P" ["AB", "C"] = templateClassName "P" ["A", "BC"] ∧
    instantiateAll [("P", ["AB", "C"]), ("P", ["A", "BC"])] = ["P_ABC"] := by
  refine ⟨by decide, rfl, rfl⟩

/-! ### C8: float assertions -/

/-- C8: the claim "floats compared by absolute epsilon 1e-6" fails on the
code: the generated assertion for a constant float literal is plain
equality, because the branch that would emit the epsilon comparison tests
`type(meta['assertion'])` — the assertion DICT itself, never of type
`float` — instead of `type(meta['assertion']['value'])`.  The epsilon
branch (and the bytes branch) is unreachable for every assertion. -/
theorem c8_float_assertion_exact_equality :
    emittedAssert ⟨false, .floatLit "1.5"⟩ = .eq ∧
    AssertKind.eq ≠ AssertKind.floatEps ∧
    (∀ a : AssertionMeta, emittedAssert a ≠ .floatEps) := by
  refine ⟨rfl, by decide, fun a => ?_⟩
  rcases a with ⟨isRef, v⟩
  cases isRef <;> simp [emittedAssert, assertionPyType]

/-! ### C9 amended -/

/-- C9 amended: instantiation is memoized by the mangled class name
`name + '_' + ''.join(args)`: the same template instantiated twice with
the same argument tuple yields one single generated record type, and two
different argument tuples yield two distinct generated record types
PROVIDED the concatenations of their argument names differ (tuples with
equal concatenation collide onto one type, see the counterexample). -/
theorem c9_memoization_amended :
    (∀ (n : String) (args : List String),
      instantiateAll [(n, args), (n, args)] = [templateClassName n args]) ∧
    (∀ (n : String) (a1 a2 : List String), String.join a1 ≠ String.join a2 →
      templateClassName n a1 ≠ templateClassName n a2 ∧
      instantiateAll [(n, a1), (n, a2)] =
        [templateClassName n a1, templateClassName n a2]) := by
  constructor
  · intro n args
    simp [instantiateAll]
  · intro n a1 a2 hne
    have hcn : templateClassName n a1 ≠ templateClassName n a2 := by
      intro h
      apply hne
      have h2 := congrArg String.data h
      simp only [templateClassName, String.data_append] at h2
      exact String.ext (List.append_cancel_left h2)
    refine ⟨hcn, ?_⟩
    simp [instantiateAll, hcn, Ne.symm hcn]

/-- Witness for C9 at the instantiations `LinkedList<PlanetData>` and
`LinkedList<StarData>` mentioned by the specification. -/
theorem c9_memoization_amended_witness :
    templateClassName "LinkedList" ["PlanetData"] ≠ templateClassName "LinkedList" ["StarData"] ∧
    instantiateAll [("LinkedList", ["PlanetData"]), ("LinkedList", ["StarData"])] =
      [templateClassName "LinkedList" ["PlanetData"], templateClassName "LinkedList" ["StarData"]] :=
  c9_memoization_amended.2 "LinkedList" ["PlanetData"] ["StarData"] (by decide)

/-! ### C10: fixed-width parse on short streams -/

/-- C10: every fixed-width integer primitive parse (`int8`, `uint8`,
`boolean`, `int16`, `uint16`, `int24`, `int32`, `uint32`, `int64`,
`uint64`) returns normally on EVERY stream — the short (possibly empty)
result of `read` is passed to `int.from_bytes` without a length check, so
no end-of-file error is possible — and on an exhausted stream each returns
the value 0 with the stream unmoved. -/
theorem c10_fixed_width_no_eof : ∀ s : ByteStream,
    ((∃ r, int8.parse s = .ok r) ∧ (∃ r, uint8.parse s = .ok r) ∧
     (∃ r, boolean.parse s = .ok r) ∧ (∃ r, int16.parse s = .ok r) ∧
     (∃ r, uint16.parse s = .ok r) ∧ (∃ r, int24.parse s = .ok r) ∧
     (∃ r, int32.parse s = .ok r) ∧ (∃ r, uint32.parse s = .ok r) ∧
     (∃ r, int64.parse s = .ok r) ∧ (∃ r, uint64.parse s = .ok r)) ∧
    (s.data.length ≤ s.pos →
      int8.parse s = .ok (0, s) ∧ uint8.parse s = .ok (0, s) ∧
      boolean.parse s = .ok (0, s) ∧ int16.parse s = .ok (0, s) ∧
      uint16.parse s = .ok (0, s) ∧ int24.parse s = .ok (0, s) ∧
      int32.parse s = .ok (0, s) ∧ uint32.parse s = .ok (0, s) ∧
      int64.parse s = .ok (0, s) ∧ uint64.parse s = .ok (0, s)) := by
  rintro ⟨d, p⟩
  refine ⟨⟨⟨_, rfl⟩, ⟨_, rfl⟩, ⟨_, rfl⟩, ⟨_, rfl⟩, ⟨_, rfl⟩, ⟨_, rfl⟩, ⟨_, rfl⟩, ⟨_, rfl⟩,
    ⟨_, rfl⟩, ⟨_, rfl⟩⟩, fun h => ?_⟩
  have hd : d.drop p = [] := List.drop_eq_nil_of_le h
  refine ⟨?_, ?_, ?_, ?_, ?_, ?_, ?_, ?_, ?_, ?_⟩ <;>
    simp [int8.parse, uint8.parse, boolean.parse, int16.parse, uint16.parse, int24.parse,
      int32.parse, uint32.parse, int64.parse, uint64.parse, ByteStream.read, hd,
      pyIntFromBytes, fromBytesLES, fromBytesLEU]

/-- Witness for C10 on the empty exhausted stream. -/
theorem c10_fixed_width_no_eof_witness :
    int8.parse ⟨[], 0⟩ = .ok (0, ⟨[], 0⟩) ∧ uint8.parse ⟨[], 0⟩ = .ok (0, ⟨[], 0⟩) ∧
    boolean.parse ⟨[], 0⟩ = .ok (0, ⟨[], 0⟩) ∧ int16.parse ⟨[], 0⟩ = .ok (0, ⟨[], 0⟩) ∧
    uint16.parse ⟨[], 0⟩ = .ok (0, ⟨[], 0⟩) ∧ int24.parse ⟨[], 0⟩ = .ok (0, ⟨[], 0⟩) ∧
    int32.parse ⟨[], 0⟩ = .ok (0, ⟨[], 0⟩) ∧ uint32.parse ⟨[], 0⟩ = .ok (0, ⟨[], 0⟩) ∧
    int64.parse ⟨[], 0⟩ = .ok (0, ⟨[], 0⟩) ∧ uint64.parse ⟨[], 0⟩ = .ok (0, ⟨[], 0⟩) :=
  (c10_fixed_width_no_eof ⟨[], 0⟩).2 (by decide)

/-! ### C1: byte round-trip of generated records -/

/-- A valid encoding of a `TestSX` value: the `varint.save` encoding of
length 300, three hundred `0x61` bytes, and the `int8` byte `0x07` — the
exact output of `TestSX.save` on the record with a 300-byte string and
`x = 7`. -/
def exampleEncoding : List Nat := varint.save 300 ++ List.replicate 300 0x61 ++ [0x07]

set_option maxRecDepth 10000 in
/-- C1: the claim "for every record type and every valid encoding b,
save(parse(b)) reproduces exactly the bytes [location_start, location_end)"
fails on the code.  `exampleEncoding` is a valid encoding (it is the exact
output of the generated `save` on a record value), the generated `parse`
decodes it occupying precisely `[0, 303)` — but MSB-first `varint.parse`
reads the LSB-first length `[0xAC, 0x02]` back as 5634, swallowing the
`int8` field into the string — and re-saving the decoded record does not
reproduce the bytes. -/
theorem c1_generated_roundtrip_fails :
    TestSX.save ⟨List.replicate 300 0x61, 7, -1, -1⟩ = .ok exampleEncoding ∧
    exampleEncoding.length = 303 ∧
    TestSX.parse ⟨exampleEncoding, 0⟩ =
      .ok (⟨List.replicate 300 0x61 ++ [0x07], 0, 0, 303⟩, ⟨exampleEncoding, 303⟩) ∧
    TestSX.save ⟨List.replicate 300 0x61 ++ [0x07], 0, 0, 303⟩ ≠ .ok exampleEncoding := by
  exact ⟨by decide, by decide, by decide, by decide⟩

/-! ### C4: FlexibleInt round-trip and encoded lengths -/

theorem toBytesLE_length (k : Nat) : ∀ v : Nat, (toBytesLE k v).length = k := by
  induction k with
  | zero => intro v; rfl
  | succ k ih => intro v; simp [toBytesLE, ih]

theorem fromBytesLEU_toBytesLE (k : Nat) : ∀ v : Nat,
    fromBytesLEU (toBytesLE k v) = v % 256 ^ k := by
  induction k with
  | zero => intro v; simp [toBytesLE, fromBytesLEU, Nat.mod_one]
  | succ k ih =>
    intro v
    simp only [toBytesLE, fromBytesLEU, ih]
    rw [pow_succ', Nat.mod_mul]

theorem fromBytesLEU_toBytesLE_of_lt {k v : Nat} (h : v < 256 ^ k) :
    fromBytesLEU (toBytesLE k v) = v := by
  rw [fromBytesLEU_toBytesLE, Nat.mod_eq_of_lt h]

/-- Signed byte round-trip: for `n` in the signed `k`-byte range, encoding
`n % 2^(8k)` (Python's two's complement `to_bytes`) and decoding it as a
signed little-endian integer recovers `n`. -/
theorem fromBytesLES_toBytesLE (k : Nat) (hk : 0 < k) (n : Int)
    (h1 : -(2 ^ (8 * k - 1) : Int) ≤ n) (h2 : n < 2 ^ (8 * k - 1)) :
    fromBytesLES (toBytesLE k ((n % ((2 ^ (8 * k) : Nat) : Int)).toNat)) = n := by
  have hMpos : (0 : Int) < ((2 ^ (8 * k) : Nat) : Int) := by positivity
  have hcast : ((2 ^ (8 * k) : Nat) : Int) = (2 ^ (8 * k) : Int) := by push_cast; ring
  have hcastH : ((2 ^ (8 * k - 1) : Nat) : Int) = (2 ^ (8 * k - 1) : Int) := by push_cast; ring
  have hsplit : (2 ^ (8 * k) : Int) = 2 * 2 ^ (8 * k - 1) := by
    rw [← pow_succ']
    congr 1
    omega
  have hnn : (0 : Int) ≤ n % ((2 ^ (8 * k) : Nat) : Int) :=
    Int.emod_nonneg n (by omega)
  have hlt : n % ((2 ^ (8 * k) : Nat) : Int) < ((2 ^ (8 * k) : Nat) : Int) :=
    Int.emod_lt_of_pos n hMpos
  have hu : (((n % ((2 ^ (8 * k) : Nat) : Int)).toNat : Nat) : Int)
      = n % ((2 ^ (8 * k) : Nat) : Int) := Int.toNat_of_nonneg hnn
  have hcases : n % ((2 ^ (8 * k) : Nat) : Int) = n ∨
      n % ((2 ^ (8 * k) : Nat) : Int) = n + ((2 ^ (8 * k) : Nat) : Int) := by
    rcases le_or_lt 0 n with hpos | hneg
    · left
      exact Int.emod_eq_of_lt hpos (by omega)
    · right
      have h3 : (n + ((2 ^ (8 * k) : Nat) : Int) * 1) % ((2 ^ (8 * k) : Nat) : Int)
          = n % ((2 ^ (8 * k) : Nat) : Int) := Int.add_mul_emod_self_left n ((2 ^ (8 * k) : Nat) : Int) 1
      rw [mul_one] at h3
      rw [← h3]
      exact Int.emod_eq_of_lt (by omega) (by omega)
  have h256 : (256 : Nat) ^ k = 2 ^ (8 * k) := by
    rw [show (256 : Nat) = 2 ^ 8 from rfl, ← pow_mul]
  have hultN : (n % ((2 ^ (8 * k) : Nat) : Int)).toNat < 256 ^ k := by
    rw [h256]
    omega
  unfold fromBytesLES
  simp only [toBytesLE_length, fromBytesLEU_toBytesLE_of_lt hultN]
  split
  · omega
  · omega

theorem exceptOkBind {e a b : Type} (x : a) (f : a → Except e b) :
    ((Except.ok x : Except e a) >>= f) = f x := rfl

theorem uint8_parse_cons (b : Nat) (rest : List Nat) :
    uint8.parse ⟨b :: rest, 0⟩ = .ok ((b : Int), ⟨b :: rest, 1⟩) := by
  simp [uint8.parse, ByteStream.read, pyIntFromBytes, fromBytesLEU]

theorem flexParse_ind_gt4 (ind : Nat) (h5 : 4 < ind) (rest : List Nat) :
    FlexibleInt.parse ⟨ind :: rest, 0⟩ = .ok ((ind : Int), ⟨ind :: rest, 1⟩) := by
  have hgt : ((ind : Int) > 4 ∨ (ind : Int) = 0) := by left; exact_mod_cast h5
  simp [FlexibleInt.parse, uint8_parse_cons, exceptOkBind, hgt]
  intro h4'
  exact absurd h4' (by omega)

theorem flexParse_ind_zero (rest : List Nat) :
    FlexibleInt.parse ⟨0 :: rest, 0⟩ = .ok (0, ⟨0 :: rest, 1⟩) := by
  simp [FlexibleInt.parse, uint8_parse_cons, exceptOkBind]

theorem flexParse_unsigned (ind : Nat) (h1 : 0 < ind) (h4 : ind < 4) (payload : List Nat)
    (hlen : payload.length = ind) :
    FlexibleInt.parse ⟨ind :: payload, 0⟩ =
      .ok ((fromBytesLEU payload : Int), ⟨ind :: payload, 1 + ind⟩) := by
  have hno : ¬ ((ind : Int) > 4 ∨ (ind : Int) = 0) := by
    push_neg
    omega
  have hlt : ((ind : Int) < 4) := by exact_mod_cast h4
  simp only [FlexibleInt.parse, uint8_parse_cons, exceptOkBind]
  rw [if_neg hno, if_pos hlt]
  subst hlen
  simp [ByteStream.read, pyIntFromBytes]

theorem flexParse_signed4 (payload : List Nat) (hlen : payload.length = 4) :
    FlexibleInt.parse ⟨4 :: payload, 0⟩ =
      .ok (fromBytesLES payload, ⟨4 :: payload, 5⟩) := by
  simp only [FlexibleInt.parse, uint8_parse_cons, exceptOkBind]
  rw [if_neg (by norm_num), if_neg (by norm_num)]
  simp [ByteStream.read, pyIntFromBytes, List.take_of_length_le (le_of_eq hlen), hlen]

theorem pyIntToBytes_signed_ok (k : Nat) (n : Int) (h1 : -(2 ^ (8 * k - 1)) ≤ n)
    (h2 : n < 2 ^ (8 * k - 1)) :
    pyIntToBytes k true n = .ok (toBytesLE k ((n % ((2 ^ (8 * k) : Nat) : Int)).toNat)) := by
  unfold pyIntToBytes
  rw [if_pos rfl, if_neg (by push_neg; exact ⟨h1, h2⟩)]

theorem pyIntToBytes_unsigned_ok (k : Nat) (n : Int) (h1 : 0 ≤ n)
    (h2 : n < (2 ^ (8 * k) : Int)) :
    pyIntToBytes k false n = .ok (toBytesLE k n.toNat) := by
  unfold pyIntToBytes
  rw [if_neg (by simp), if_neg (by push_neg; exact ⟨h1, h2⟩)]

theorem flexSave_neg (n : Int) (h1 : -(2 ^ 31) ≤ n) (h2 : n < 0) :
    FlexibleInt.save n = .ok (0x04 :: toBytesLE 4 ((n % ((2 ^ (8 * 4) : Nat) : Int)).toNat)) := by
  unfold FlexibleInt.save
  rw [if_neg (by omega), if_pos h2,
    pyIntToBytes_signed_ok 4 n (by norm_num; omega) (by norm_num; omega)]
  rfl

theorem flexSave_small (n : Int) (h1 : 0 < n) (h2 : n ≤ 4) :
    FlexibleInt.save n = .ok [0x01, n.toNat] := by
  have hbyte : toBytesLE 1 n.toNat = [n.toNat] := by
    simp [toBytesLE, Nat.mod_eq_of_lt (by omega : n.toNat < 256)]
  unfold FlexibleInt.save
  rw [if_neg (by omega), if_neg (by omega), if_pos (show n ≤ 0xFF by omega),
    pyIntToBytes_unsigned_ok 1 n (by omega) (by norm_num; omega)]
  simp only [exceptOkBind, hbyte]
  rw [if_pos h2]

theorem flexSave_byte (n : Int) (h1 : 4 < n) (h2 : n ≤ 0xFF) :
    FlexibleInt.save n = .ok [n.toNat] := by
  have hbyte : toBytesLE 1 n.toNat = [n.toNat] := by
    simp [toBytesLE, Nat.mod_eq_of_lt (by omega : n.toNat < 256)]
  unfold FlexibleInt.save
  rw [if_neg (by omega), if_neg (by omega), if_pos h2,
    pyIntToBytes_unsigned_ok 1 n (by omega) (by norm_num; omega)]
  simp only [exceptOkBind, hbyte]
  rw [if_neg (by omega)]

theorem flexSave_two (n : Int) (h1 : 0xFF < n) (h2 : n ≤ 0xFFFF) :
    FlexibleInt.save n = .ok (0x02 :: toBytesLE 2 n.toNat) := by
  unfold FlexibleInt.save
  rw [if_neg (by omega), if_neg (by omega), if_neg (by omega), if_pos h2,
    pyIntToBytes_unsigned_ok 2 n (by omega) (by norm_num; omega)]
  rfl

theorem flexSave_three (n : Int) (h1 : 0xFFFF < n) (h2 : n ≤ 0xFFFFFF) :
    FlexibleInt.save n = .ok (0x03 :: toBytesLE 3 n.toNat) := by
  unfold FlexibleInt.save
  rw [if_neg (by omega), if_neg (by omega), if_neg (by omega), if_neg (by omega), if_pos h2,
    pyIntToBytes_unsigned_ok 3 n (by omega) (by norm_num; omega)]
  rfl

theorem flexSave_big (n : Int) (h1 : 0xFFFFFF < n) (h2 : n < 2 ^ 31) :
    FlexibleInt.save n = .ok (0x04 :: toBytesLE 4 ((n % ((2 ^ (8 * 4) : Nat) : Int)).toNat)) := by
  unfold FlexibleInt.save
  rw [if_neg (by omega), if_neg (by omega), if_neg (by omega), if_neg (by omega),
    if_neg (by omega),
    pyIntToBytes_signed_ok 4 n (by norm_num; omega) (by norm_num; omega)]
  rfl

/-- C4 counterexample: the encoding of 5 is the single byte `0x05` (the
indicator-is-value form), not two bytes as the claim states for all of
`[1, 255]`. -/
theorem c4_length_counterexample :
    ∃ bs, FlexibleInt.save 5 = .ok bs ∧ bs.length ≠ 2 :=
  ⟨[0x05], by decide, by decide⟩

/-- C4 amended: for every 32-bit integer n, FlexibleInt decode applied to
FlexibleInt encode of n yields n, and the encoding has length 1 when
`n = 0` or `n ∈ [5, 255]` (indicator is the value), length 2 when
`n ∈ [1, 4]`, length 3 when `n ∈ [256, 65535]`, length 4 when
`n ∈ [65536, 16777215]`, and length 5 when n is larger or negative. -/
theorem c4_flexible_int_roundtrip_amended : ∀ n : Int, -(2 ^ 31) ≤ n → n < 2 ^ 31 →
    ∃ bs, FlexibleInt.save n = .ok bs ∧
      FlexibleInt.parse ⟨bs, 0⟩ = .ok (n, ⟨bs, bs.length⟩) ∧
      bs.length = (if n = 0 then 1 else if n < 0 then 5 else if n ≤ 4 then 2
        else if n ≤ 0xFF then 1 else if n ≤ 0xFFFF then 3
        else if n ≤ 0xFFFFFF then 4 else 5) := by
  intro n hlo hhi
  by_cases h0 : n = 0
  · subst h0
    exact ⟨[0x00], by decide, by decide, by decide⟩
  by_cases hneg : n < 0
  · refine ⟨0x04 :: toBytesLE 4 ((n % ((2 ^ (8 * 4) : Nat) : Int)).toNat),
      flexSave_neg n hlo hneg, ?_, ?_⟩
    · have hplen : (toBytesLE 4 ((n % ((2 ^ (8 * 4) : Nat) : Int)).toNat)).length = 4 :=
        toBytesLE_length 4 _
      have hlen : (0x04 :: toBytesLE 4 ((n % ((2 ^ (8 * 4) : Nat) : Int)).toNat)).length = 5 := by
        simp [toBytesLE_length]
      rw [hlen, flexParse_signed4 _ hplen,
        fromBytesLES_toBytesLE 4 (by norm_num) n (by norm_num; omega) (by norm_num; omega)]
    · have hplen := toBytesLE_length 4 ((n % ((2 ^ (8 * 4) : Nat) : Int)).toNat)
      simp [toBytesLE_length, h0, hneg]
  by_cases h4 : n ≤ 4
  · refine ⟨[0x01, n.toNat], flexSave_small n (by omega) h4, ?_, ?_⟩
    · rw [show ([0x01, n.toNat] : List Nat).length = 2 by simp,
        flexParse_unsigned 1 (by norm_num) (by norm_num) [n.toNat] (by simp)]
      simp [fromBytesLEU, Int.toNat_of_nonneg (by omega : (0 : Int) ≤ n)]
    · simp [h0, hneg, h4]
  by_cases h255 : n ≤ 0xFF
  · refine ⟨[n.toNat], flexSave_byte n (by omega) h255, ?_, ?_⟩
    · rw [show ([n.toNat] : List Nat).length = 1 by simp,
        flexParse_ind_gt4 n.toNat (by omega) []]
      simp [Int.toNat_of_nonneg (by omega : (0 : Int) ≤ n)]
    · simp [h0, hneg, h4, h255]
  by_cases h65535 : n ≤ 0xFFFF
  · refine ⟨0x02 :: toBytesLE 2 n.toNat, flexSave_two n (by omega) h65535, ?_, ?_⟩
    · have hplen := toBytesLE_length 2 n.toNat
      have hlen : (0x02 :: toBytesLE 2 n.toNat).length = 3 := by simp [toBytesLE_length]
      rw [hlen, flexParse_unsigned 2 (by norm_num) (by norm_num) _ hplen,
        fromBytesLEU_toBytesLE_of_lt
          (by have h2 : (256 : Nat) ^ 2 = 65536 := by norm_num
              omega)]
      simp [Int.toNat_of_nonneg (by omega : (0 : Int) ≤ n)]
    · simp [toBytesLE_length, h0, hneg, h4, h255, h65535]
  by_cases h16m : n ≤ 0xFFFFFF
  · refine ⟨0x03 :: toBytesLE 3 n.toNat, flexSave_three n (by omega) h16m, ?_, ?_⟩
    · have hplen := toBytesLE_length 3 n.toNat
      have hlen : (0x03 :: toBytesLE 3 n.toNat).length = 4 := by simp [toBytesLE_length]
      rw [hlen, flexParse_unsigned 3 (by norm_num) (by norm_num) _ hplen,
        fromBytesLEU_toBytesLE_of_lt
          (by have h2 : (256 : Nat) ^ 3 = 16777216 := by norm_num
              omega)]
      simp [Int.toNat_of_nonneg (by omega : (0 : Int) ≤ n)]
    · simp [toBytesLE_length, h0, hneg, h4, h255, h65535, h16m]
  · refine ⟨0x04 :: toBytesLE 4 ((n % ((2 ^ (8 * 4) : Nat) : Int)).toNat),
      flexSave_big n (by omega) hhi, ?_, ?_⟩
    · have hplen : (toBytesLE 4 ((n % ((2 ^ (8 * 4) : Nat) : Int)).toNat)).length = 4 :=
        toBytesLE_length 4 _
      have hlen : (0x04 :: toBytesLE 4 ((n % ((2 ^ (8 * 4) : Nat) : Int)).toNat)).length = 5 := by
        simp [toBytesLE_length]
      rw [hlen, flexParse_signed4 _ hplen,
        fromBytesLES_toBytesLE 4 (by norm_num) n (by norm_num; omega) (by norm_num; omega)]
    · have hplen := toBytesLE_length 4 ((n % ((2 ^ (8 * 4) : Nat) : Int)).toNat)
      simp [toBytesLE_length, h0, hneg, h4, h255, h65535, h16m]

/-- Witness for C4 at the value 300 (a three-byte encoding). -/
theorem c4_flexible_int_roundtrip_amended_witness :
    ∃ bs, FlexibleInt.save 300 = .ok bs ∧
      FlexibleInt.parse ⟨bs, 0⟩ = .ok (300, ⟨bs, bs.length⟩) ∧
      bs.length = (if (300 : Int) = 0 then 1 else if (300 : Int) < 0 then 5
        else if (300 : Int) ≤ 4 then 2 else if (300 : Int) ≤ 0xFF then 1
        else if (300 : Int) ≤ 0xFFFF then 3 else if (300 : Int) ≤ 0xFFFFFF then 4 else 5) :=
  c4_flexible_int_roundtrip_amended 300 (by norm_num) (by norm_num)

/-! ### C7: blueprint signature -/

/-- A concrete blueprint envelope accepted by `load_blueprint_data`: magic
and 13 header entries, the quote at index 36, then 32 signature characters
(the digest of the 36 characters BEFORE the quote, with one hex digit
upper-cased — the check lower-cases the recorded signature), then one
extra trailing character (the closing-quote search window allows up to 35
characters after the quote; the check reads the 32 characters immediately
after the quote, not the trailing 32 of the file). -/
def exampleBlueprintFile : List Char :=
  "BLUEPRINT:0,1,2,3,4,5,6,7,8,9,10,11,\"7E44715e884e493dc04377b663fbd93ez".data

set_option maxRecDepth 400000 in
/-- C7 counterexample: `exampleBlueprintFile` is accepted by the envelope
parser (including the signature check), yet its 32 trailing characters do
NOT equal the lower-cased digest of the file text up to and including the
closing quote (at index 36): the digest the code checks is taken over the
text up to but EXCLUDING the closing quote, compared against the 32
characters immediately after the quote, both sides lower-cased. -/
theorem c7_signature_counterexample :
    loadBlueprintData exampleBlueprintFile = .ok ⟨36, 36⟩ ∧
    exampleBlueprintFile.drop (exampleBlueprintFile.length - 32) ≠
      (MD5.hexdigestOf ((exampleBlueprintFile.take (36 + 1)).map Char.toNat)).data.map
        Char.toLower := by
  exact ⟨by decide, by decide⟩

/-- C7 amended: for every file passing the structural envelope checks, the
parse accepts if and only if the lower-cased 32 characters immediately
following the closing quote equal the lower-cased digest of the file text
up to but excluding the closing quote, and when they differ the parse fails
with the signature-mismatch error. -/
theorem c7_signature_amended : ∀ (data : List Char) (p : EnvelopeParts),
    parseEnvelope data = .ok p →
    (loadBlueprintData data = .ok p ↔
      ((data.drop (p.endPos + 1)).take 32).map Char.toLower =
        (MD5.hexdigestOf ((data.take p.endPos).map Char.toNat)).data.map Char.toLower) ∧
    (((data.drop (p.endPos + 1)).take 32).map Char.toLower ≠
        (MD5.hexdigestOf ((data.take p.endPos).map Char.toNat)).data.map Char.toLower →
      loadBlueprintData data = .error .signatureMismatch) := by
  intro data p h
  unfold loadBlueprintData
  rw [h]
  simp only [exceptOkBind]
  constructor
  · constructor
    · intro hok
      by_cases he : (MD5.hexdigestOf ((data.take p.endPos).map Char.toNat)).data.map Char.toLower
          = ((data.drop (p.endPos + 1)).take 32).map Char.toLower
      · exact he.symm
      · rw [if_neg he] at hok
        exact absurd hok (by simp)
    · intro he
      rw [if_pos he.symm]
  · intro hne
    rw [if_neg (fun he => hne he.symm)]

set_option maxRecDepth 400000 in
/-- Witness for C7 at the concrete accepted envelope. -/
theorem c7_signature_amended_witness :
    (loadBlueprintData exampleBlueprintFile = .ok ⟨36, 36⟩ ↔
      ((exampleBlueprintFile.drop (36 + 1)).take 32).map Char.toLower =
        (MD5.hexdigestOf ((exampleBlueprintFile.take 36).map Char.toNat)).data.map
          Char.toLower) ∧
    (((exampleBlueprintFile.drop (36 + 1)).take 32).map Char.toLower ≠
        (MD5.hexdigestOf ((exampleBlueprintFile.take 36).map Char.toNat)).data.map
          Char.toLower →
      loadBlueprintData exampleBlueprintFile = .error .signatureMismatch) :=
  c7_signature_amended exampleBlueprintFile ⟨36, 36⟩ (by decide)
